import Mathlib

/-!
Verification model of the chatbot relay (`chatbot_openrouter.py` standalone
HTTP variant and `chatbot_app.py` interactive variant).

The Python code is embedded shallowly:

* JSON values (as produced by `json.loads`) become the inductive `Json`;
  numbers are restricted to integers, which is irrelevant here because the
  validator treats every non-string value alike.
* The network boundary is abstracted: one upstream invocation is described by
  an `UpstreamResult` (HTTP error, unreachable, or a 2xx body together with
  the result of JSON-parsing that body).
* Python exceptions become an explicit `PyErr` value threaded through
  `Except`; the two `except` clauses of `do_POST` are reproduced by
  discriminating on the constructor, mirroring Python's class hierarchy
  (`json.JSONDecodeError` is a subclass of `ValueError`).
* An exception escaping `do_POST` (outside both `except` clauses) is the
  `HandlerOutcome.uncaughtExc` outcome: the handler writes no response.
-/

namespace Chatbot

/-- A chat message: a `{role, content}` dictionary of strings, as built by
`_validate_messages` and consumed by the upstream adapter. -/
structure Msg where
  role : String
  content : String
deriving Repr, DecidableEq

/-- JSON values as produced by `json.loads`.  Objects keep their key/value
pairs in order; `jget` reproduces the last-key-wins behaviour of Python
dict construction. -/
inductive Json where
  | null
  | bool (b : Bool)
  | num (n : Int)
  | str (s : String)
  | arr (items : List Json)
  | obj (fields : List (String × Json))
deriving Repr

/-- Python `d.get(key)` on the dict corresponding to `fields`: `json.loads` builds
the dict left to right, so a duplicated key keeps its last value. -/
def jget (fields : List (String × Json)) (key : String) : Option Json :=
  ((fields.filter (fun kv => kv.1 == key)).getLast?).map (fun kv => kv.2)

/-- The function `_build_system_prompt` of `chatbot_openrouter.py` (lines 40–52): the fixed
persona/rule header followed by the verbatim knowledge text. -/
def buildSystemPrompt (knowledgeBase : String) : String :=
  "あなたは、**東京確率セミナーの事務局を担当する、丁寧で親切な秘書AI**です。" ++
  "以下に提供されたセミナー情報のみに基づいて回答してくださいペンギン。\n\n" ++
  "【ルール】\n" ++
  "- 常に敬語ですペンギン\n" ++
  "- 語尾に必ず「ペンギン」を付けますペンギン\n" ++
  "- 情報がなければ、" ++
  "「申し訳ございません。提供された情報には、その件に関する記載がございませんでしたペンギン。」" ++
  "と答えますペンギン\n\n" ++
  "【セミナー情報】\n" ++
  knowledgeBase

/-- The system prompt literal of `chatbot_app.py` (`get_bot_response`,
lines 26–37); the literal block is character-identical to the one in
`_build_system_prompt`. -/
def systemPromptApp (knowledgeBase : String) : String :=
  "あなたは、**東京確率セミナーの事務局を担当する、丁寧で親切な秘書AI**です。" ++
  "以下に提供されたセミナー情報のみに基づいて回答してくださいペンギン。\n\n" ++
  "【ルール】\n" ++
  "- 常に敬語ですペンギン\n" ++
  "- 語尾に必ず「ペンギン」を付けますペンギン\n" ++
  "- 情報がなければ、" ++
  "「申し訳ございません。提供された情報には、その件に関する記載がございませんでしたペンギン。」" ++
  "と答えますペンギン\n\n" ++
  "【セミナー情報】\n" ++
  knowledgeBase

/-- The characters Python's `str.strip()` (and `int()`) remove: ASCII
whitespace.  (Python also strips some Unicode space characters; nothing
here depends on those.) -/
def pyIsSpace (c : Char) : Bool :=
  c = ' ' || c = '\t' || c = '\n' || c = '\r' || c = '\x0b' || c = '\x0c'

/-- Python `s.strip()`: surrounding whitespace removed from both ends. -/
def pyStrip (s : String) : String :=
  ⟨((s.data.dropWhile pyIsSpace).reverse.dropWhile pyIsSpace).reverse⟩

/-- Python exceptions that can cross the functions modelled here.
`jsonDecodeError` is a subclass of `ValueError` in Python, which the
transport's `except (ValueError, json.JSONDecodeError)` clause relies on. -/
inductive PyErr where
  | valueError (msg : String)
  | jsonDecodeError (msg : String)
  | typeError (msg : String)
  | runtimeError (msg : String)
deriving Repr, DecidableEq

/-- Python `str(e)` for the exceptions modelled here. -/
def PyErr.message : PyErr → String
  | .valueError m => m
  | .jsonDecodeError m => m
  | .typeError m => m
  | .runtimeError m => m

/-- Whether `except (ValueError, json.JSONDecodeError)` catches the
exception (`TypeError` and `RuntimeError` fall through to
`except Exception`). -/
def PyErr.isValueErrorFamily : PyErr → Bool
  | .valueError _ => true
  | .jsonDecodeError _ => true
  | .typeError _ => false
  | .runtimeError _ => false

/-- One iteration of the loop in `_validate_messages` (lines 115–124).
`role not in {"user", "assistant"}` hashes `role`, so an unhashable value
(a JSON array or object) raises `TypeError` before any validation message
is produced. -/
def validateItem (item : Json) : Except PyErr Msg :=
  match item with
  | .obj fields =>
    match jget fields "role" with
    | some (.arr _) => .error (.typeError "unhashable type: \x27list\x27")
    | some (.obj _) => .error (.typeError "unhashable type: \x27dict\x27")
    | some (.str r) =>
      if r = "user" ∨ r = "assistant" then
        match jget fields "content" with
        | some (.str c) =>
          if pyStrip c = "" then
            .error (.valueError "Each message.content must be a non-empty string.")
          else
            .ok ⟨r, c⟩
        | _ => .error (.valueError "Each message.content must be a non-empty string.")
      else
        .error (.valueError "Each message.role must be \x27user\x27 or \x27assistant\x27.")
    | _ => .error (.valueError "Each message.role must be \x27user\x27 or \x27assistant\x27.")
  | _ => .error (.valueError "Each message must be an object.")

/-- The whole loop of `_validate_messages`: items are checked in order and
the first failure propagates. -/
def validateList : List Json → Except PyErr (List Msg)
  | [] => .ok []
  | item :: rest =>
    match validateItem item with
    | .error e => .error e
    | .ok m =>
      match validateList rest with
      | .error e => .error e
      | .ok ms => .ok (m :: ms)

/-- The function `_validate_messages` (lines 107–128). -/
def validateMessages (payload : Json) : Except PyErr (List Msg) :=
  match payload with
  | .obj fields =>
    match jget fields "messages" with
    | some (.arr items) =>
      match validateList items with
      | .error e => .error e
      | .ok cleaned =>
        if cleaned.isEmpty then
          .error (.valueError "Body.messages must not be empty.")
        else
          .ok cleaned
    | _ => .error (.valueError "Body.messages must be a JSON array.")
  | _ => .error (.valueError "Body must be a JSON object.")

mutual

/-- Python's `str()` rendering of a parsed JSON value (a Python object built
from dicts, lists, strings, numbers, booleans and `None`), used in the
`Unexpected upstream response: {parsed}` diagnostic. -/
def pyRepr : Json → String
  | .null => "None"
  | .bool true => "True"
  | .bool false => "False"
  | .num n => toString n
  | .str s => "\x27" ++ s ++ "\x27"
  | .arr items => "[" ++ String.intercalate ", " (pyReprList items) ++ "]"
  | .obj fields => "\x7b" ++ String.intercalate ", " (pyReprFields fields) ++ "\x7d"

/-- Python `str()` of the elements of a Python list. -/
def pyReprList : List Json → List String
  | [] => []
  | j :: rest => pyRepr j :: pyReprList rest

/-- Python `str()` of the entries of a Python dict. -/
def pyReprFields : List (String × Json) → List String
  | [] => []
  | (k, v) :: rest => ("\x27" ++ k ++ "\x27: " ++ pyRepr v) :: pyReprFields rest

end

/-- The outcome of the single `urllib.request.urlopen` call made by
`_openai_compatible_chat_completion`:
* `httpError`: the endpoint answered with a non-2xx status (raised as
  `urllib.error.HTTPError`); carries the status code and the decoded body;
* `urlError`: network/DNS/timeout failure before a response
  (`urllib.error.URLError`); carries `str(e)`;
* `ok`: a 2xx response; carries the result of `json.loads` on the decoded
  body (`.error msg` when the body is not valid JSON, in which case
  `json.loads` raises `json.JSONDecodeError` with message `msg`). -/
inductive UpstreamResult where
  | httpError (code : Nat) (body : String)
  | urlError (msg : String)
  | ok (parse : Except String Json)

/-- The access `parsed["choices"][0]["message"]["content"]` followed by `.strip()`,
wrapped in `try/except Exception` in the source (lines 101–104): any lookup
failure (`TypeError`, `KeyError`, `IndexError`) or a non-string `content`
(`AttributeError` from `.strip()`) lands in the `except` branch, so the
whole access is `none` unless the path exists and holds a string. -/
def extractContent (parsed : Json) : Option String :=
  match parsed with
  | .obj fields =>
    match jget fields "choices" with
    | some (.arr (c0 :: _)) =>
      match c0 with
      | .obj cfields =>
        match jget cfields "message" with
        | some (.obj mfields) =>
          match jget mfields "content" with
          | some (.str s) => some s
          | _ => none
        | _ => none
      | _ => none
    | _ => none
  | _ => none

/-- The JSON body `{model, messages, temperature}` sent upstream by
`_openai_compatible_chat_completion` (lines 76–80). -/
structure UpstreamPayload where
  model : String
  messages : List Msg
  temperature : Rat
deriving Repr, DecidableEq

/-- The adapter `_openai_compatible_chat_completion` (lines 65–104), as a function of
the messages passed in and the outcome of the one network call.  Note that
`json.loads(raw)` on line 100 sits outside the `try` of lines 91–98: a
non-JSON 2xx body propagates as `json.JSONDecodeError`, not as the
`RuntimeError` the two `except` clauses produce. -/
def chatCompletion (_messages : List Msg) (upstream : UpstreamResult) :
    Except PyErr String :=
  match upstream with
  | .httpError code body =>
      .error (.runtimeError ("Upstream error (" ++ toString code ++ "): " ++ body))
  | .urlError msg =>
      .error (.runtimeError ("Failed to reach upstream: " ++ msg))
  | .ok parse =>
    match parse with
    | .error msg => .error (.jsonDecodeError msg)
    | .ok parsed =>
      match extractContent parsed with
      | some content => .ok (pyStrip content)
      | none =>
          .error (.runtimeError ("Unexpected upstream response: " ++ pyRepr parsed))

/-- The messages list built on line 192 of `do_POST`:
`[{"role": "system", "content": SYSTEM_PROMPT}, *user_messages]`. -/
def sentMessages (systemPrompt : String) (userMessages : List Msg) : List Msg :=
  ⟨"system", systemPrompt⟩ :: userMessages

/-- The body handed to the upstream endpoint for one validated request
(model and temperature as fixed by `do_POST`: the configured model and
`temperature=0.1`). -/
def upstreamRequestBody (model systemPrompt : String) (userMessages : List Msg) :
    UpstreamPayload :=
  ⟨model, sentMessages systemPrompt userMessages, (1 : Rat) / 10⟩

/-- Python `int(s)` on a decimal string: surrounding whitespace is stripped,
then an optional sign followed by at least one digit.  (Python also allows
underscores between digits; no claim touches that corner.) -/
def digitsVal : List Char → Option Nat
  | [] => none
  | cs =>
    cs.foldl
      (fun acc c =>
        acc.bind fun n => if c.isDigit then some (n * 10 + (c.toNat - 48)) else none)
      (some 0)

/-- Python `int(s)`; `none` models the `ValueError` raised on a
non-integer literal. -/
def pyInt (s : String) : Option Int :=
  match (pyStrip s).data with
  | '+' :: rest => (digitsVal rest).map Int.ofNat
  | '-' :: rest => (digitsVal rest).map fun n => -(n : Int)
  | cs => (digitsVal cs).map Int.ofNat

/-- The expression `self.headers.get("Content-Length", "0") or "0"` (line 160): an absent
header gives the default `"0"`, and an empty header string is falsy so the
`or` also yields `"0"`. -/
def contentLengthString (header : Option String) : String :=
  match header with
  | none => "0"
  | some s => if s = "" then "0" else s

/-- Python `a or b` on `os.getenv` results: `None` and `""` are falsy. -/
def pyOrStr (a b : Option String) : Option String :=
  match a with
  | some s => if s = "" then b else some s
  | none => b

/-- The chain `os.getenv("OPENROUTER_API_KEY") or os.getenv("OPENAI_API_KEY") or ""`
(line 174), with the environment as a map into `Option`. -/
def apiKeyOf (env : String → Option String) : String :=
  (pyOrStr (env "OPENROUTER_API_KEY") (env "OPENAI_API_KEY")).getD ""

/-- What `do_POST` does with one request:
* `jsonResp`: `_json_response(self, status, payload)` was called;
* `notFound`: `self.send_error(404, "Not Found")` was called;
* `uncaughtExc`: an exception escaped `do_POST` (raised outside the
  `try`), so the handler wrote no response for this request; the
  socketserver layer logs it and the process keeps serving. -/
inductive HandlerOutcome where
  | jsonResp (status : Nat) (payload : Json)
  | notFound (status : Nat) (msg : String)
  | uncaughtExc (msg : String)

/-- The HTTP status carried by the outcome, when a response was written. -/
def HandlerOutcome.status : HandlerOutcome → Option Nat
  | .jsonResp s _ => some s
  | .notFound s _ => some s
  | .uncaughtExc _ => none

/-- Whether the handler wrote any response at all for the request. -/
def HandlerOutcome.isResponse : HandlerOutcome → Bool
  | .jsonResp _ _ => true
  | .notFound _ _ => true
  | .uncaughtExc _ => false

/-- The `\x7b"error": msg\x7d` response payload. -/
def errObj (msg : String) : Json :=
  .obj [("error", .str msg)]

/-- The `\x7b"reply": msg\x7d` response payload. -/
def replyObj (msg : String) : Json :=
  .obj [("reply", .str msg)]

/-- The status the two `except` clauses of `do_POST` (lines 198–201) assign
to an exception: 400 for the `(ValueError, json.JSONDecodeError)` family,
500 for everything else. -/
def exceptStatus (e : PyErr) : Nat :=
  if e.isValueErrorFamily then 400 else 500

/-- The handler `ChatbotHandler.do_POST` (lines 154–201) for a single request, as a
function of: the module-level `SYSTEM_PROMPT`, the environment, the request
path (after `urlparse`), the raw `Content-Length` header, the result of
`json.loads` on the (UTF-8-with-replacement decoded) request body, and the
outcome of the one upstream call.  Reading the body itself never raises
(`errors="replace"`), so the body enters only through its parse result.
`int(...)` on line 160 runs outside the `try`, hence the `uncaughtExc`
branch for a non-integer header. -/
def doPOST (systemPrompt : String) (env : String → Option String)
    (path : String) (clHeader : Option String)
    (bodyParse : Except String Json) (upstream : UpstreamResult) :
    HandlerOutcome :=
  if path ≠ "/api/chat" then
    .notFound 404 "Not Found"
  else
    match pyInt (contentLengthString clHeader) with
    | none =>
        .uncaughtExc ("invalid literal for int() with base 10: \x27" ++
          contentLengthString clHeader ++ "\x27")
    | some contentLength =>
      if contentLength ≤ 0 ∨ contentLength > 1000000 then
        .jsonResp 400 (errObj "Invalid Content-Length.")
      else
        match bodyParse with
        | .error msg => .jsonResp 400 (errObj msg)
        | .ok payload =>
          match validateMessages payload with
          | .error e => .jsonResp (exceptStatus e) (errObj e.message)
          | .ok userMessages =>
            if pyStrip (apiKeyOf env) = "" then
              .jsonResp 500
                (errObj "Missing OPENROUTER_API_KEY (or OPENAI_API_KEY). Set it in .env.")
            else
              match chatCompletion (sentMessages systemPrompt userMessages) upstream with
              | .ok reply => .jsonResp 200 (replyObj reply)
              | .error e => .jsonResp (exceptStatus e) (errObj e.message)

/-!  Interactive (Streamlit) variant, `chatbot_app.py`. -/

/-- The outcome of `client.chat.completions.create(...)` followed by the
`choices[0].message.content` access in `get_bot_response`: `.ok content`
when the call returns and the first completion's content is a string,
`.error msg` when the call raises (with `str(e) = msg`). -/
def AppUpstream := Except String String

/-- The function `get_bot_response` (lines 24–51): returns the first completion's
content as-is on success — no `.strip()` in this variant — and an inline
error string on any exception. -/
def getBotResponse (upstream : AppUpstream) : String :=
  match upstream with
  | .ok content => content
  | .error e => "応答の生成中にエラーが発生しました: " ++ e

/-- The messages list `get_bot_response` sends upstream (lines 42–45):
the system prompt followed by the single user prompt. -/
def appSentMessages (knowledgeBase userPrompt : String) : List Msg :=
  [⟨"system", systemPromptApp knowledgeBase⟩, ⟨"user", userPrompt⟩]

/-- One iteration of the chat-input handler (lines 90–101): append the user
message to the session transcript, call `get_bot_response` synchronously,
then append the returned reply as the assistant message. -/
def chatStep (transcript : List Msg) (prompt : String) (upstream : AppUpstream) :
    List Msg :=
  let afterUser := transcript ++ [⟨"user", prompt⟩]
  let reply := getBotResponse upstream
  afterUser ++ [⟨"assistant", reply⟩]

/-!  Spec-side restatement of the validation contract, for comparison with
`validateMessages` (the definition taken from the source).  -/

/-- The spec's per-message condition, restated: an object with `role`
`"user"` or `"assistant"` and a string `content` containing at least one
non-whitespace character. -/
def specItemOk (item : Json) : Bool :=
  match item with
  | .obj fields =>
    (match jget fields "role" with
     | some (.str r) => r == "user" || r == "assistant"
     | _ => false)
    &&
    (match jget fields "content" with
     | some (.str c) => !(pyStrip c == "")
     | _ => false)
  | _ => false

/-- The spec's whole-body condition, restated: a JSON object whose
`messages` field is a non-empty array of messages each satisfying
`specItemOk`. -/
def specValidBody (body : Json) : Bool :=
  match body with
  | .obj fields =>
    match jget fields "messages" with
    | some (.arr items) => !items.isEmpty && items.all specItemOk
    | _ => false
  | _ => false

/-!  Helper lemmas.  -/

/-- Any message accepted by the per-item validation carries one of the two
caller roles. -/
lemma validateItem_role {item : Json} {m : Msg} (h : validateItem item = .ok m) :
    m.role = "user" ∨ m.role = "assistant" := by
  unfold validateItem at h
  repeat' split at h
  all_goals simp_all
  all_goals (cases h; simp_all)

/-- Roles of every message surviving the validation loop. -/
lemma validateList_roles {items : List Json} {ms : List Msg}
    (h : validateList items = .ok ms) :
    ∀ m ∈ ms, m.role = "user" ∨ m.role = "assistant" := by
  induction items generalizing ms with
  | nil =>
    simp only [validateList] at h
    cases h
    simp
  | cons item rest ih =>
    simp only [validateList] at h
    cases hi : validateItem item with
    | error e => rw [hi] at h; cases h
    | ok m0 =>
      rw [hi] at h
      cases hr : validateList rest with
      | error e => rw [hr] at h; cases h
      | ok ms' =>
        rw [hr] at h
        cases h
        intro m hm
        rcases List.mem_cons.1 hm with rfl | hm'
        · exact validateItem_role hi
        · exact ih hr m hm'

/-- Inversion for a successful `_validate_messages` run. -/
lemma validateMessages_ok_elim {payload : Json} {ms : List Msg}
    (h : validateMessages payload = .ok ms) :
    ∃ fields items, payload = .obj fields ∧
      jget fields "messages" = some (.arr items) ∧
      validateList items = .ok ms ∧ ¬ ms.isEmpty = true := by
  cases payload with
  | null => cases h
  | bool b => cases h
  | num n => cases h
  | str s => cases h
  | arr its => cases h
  | obj fields =>
    simp only [validateMessages] at h
    refine ⟨fields, ?_⟩
    cases hm : jget fields "messages" with
    | none => rw [hm] at h; cases h
    | some v =>
      rw [hm] at h
      cases v with
      | null => cases h
      | bool b => cases h
      | num n => cases h
      | str s => cases h
      | obj f2 => cases h
      | arr items =>
        simp only [] at h
        refine ⟨items, rfl, rfl, ?_⟩
        cases hr : validateList items with
        | error e => rw [hr] at h; cases h
        | ok cleaned =>
          rw [hr] at h
          simp only [] at h
          by_cases hne : cleaned.isEmpty = true
          · rw [if_pos hne] at h; cases h
          · rw [if_neg hne] at h; cases h; exact ⟨rfl, hne⟩

/-- Introduction for a successful `_validate_messages` run. -/
lemma validateMessages_ok_intro {fields : List (String × Json)}
    {items : List Json} {ms : List Msg}
    (hm : jget fields "messages" = some (.arr items))
    (hr : validateList items = .ok ms) (hne : ¬ ms.isEmpty = true) :
    validateMessages (.obj fields) = .ok ms := by
  simp only [validateMessages]
  rw [hm]
  simp only []
  rw [hr]
  simp only []
  rw [if_neg hne]

/-- Roles of every message list produced by `_validate_messages`. -/
lemma validateMessages_roles {payload : Json} {ms : List Msg}
    (h : validateMessages payload = .ok ms) :
    ∀ m ∈ ms, m.role = "user" ∨ m.role = "assistant" := by
  obtain ⟨fields, items, -, -, hr, -⟩ := validateMessages_ok_elim h
  exact validateList_roles hr

/-- Every rejection produced by the per-item validation carries a
non-empty diagnostic. -/
lemma validateItem_error_message {item : Json} {e : PyErr}
    (h : validateItem item = .error e) : e.message ≠ "" := by
  unfold validateItem at h
  repeat' split at h
  all_goals (cases h <;> decide)

/-- Every rejection of the validation loop carries a non-empty
diagnostic. -/
lemma validateList_error_message {items : List Json} {e : PyErr}
    (h : validateList items = .error e) : e.message ≠ "" := by
  induction items with
  | nil => simp only [validateList] at h; cases h
  | cons item rest ih =>
    simp only [validateList] at h
    cases hi : validateItem item with
    | error e0 => rw [hi] at h; cases h; exact validateItem_error_message hi
    | ok m0 =>
      rw [hi] at h
      cases hr : validateList rest with
      | error e0 => rw [hr] at h; cases h; exact ih hr
      | ok ms' => rw [hr] at h; cases h

/-- Every rejection of `_validate_messages` carries a non-empty
diagnostic. -/
lemma validateMessages_error_message {payload : Json} {e : PyErr}
    (h : validateMessages payload = .error e) : e.message ≠ "" := by
  unfold validateMessages at h
  repeat' split at h
  all_goals first
    | (cases h <;> decide)
    | (cases h; exact validateList_error_message (by assumption))

/-- The per-item validation succeeds exactly on the spec's per-message
condition. -/
lemma validateItem_ok_iff {item : Json} :
    (∃ m, validateItem item = .ok m) ↔ specItemOk item = true := by
  unfold validateItem specItemOk
  repeat' split
  all_goals simp_all

/-- The validation loop succeeds exactly when every item satisfies the
spec's per-message condition. -/
lemma validateList_ok_iff {items : List Json} :
    (∃ ms, validateList items = .ok ms) ↔ items.all specItemOk = true := by
  induction items with
  | nil => simp [validateList]
  | cons item rest ih =>
    simp only [validateList, List.all_cons, Bool.and_eq_true]
    constructor
    · rintro ⟨ms, h⟩
      cases hi : validateItem item with
      | error e => rw [hi] at h; cases h
      | ok m0 =>
        rw [hi] at h
        cases hr : validateList rest with
        | error e => rw [hr] at h; cases h
        | ok ms' =>
          exact ⟨validateItem_ok_iff.1 ⟨m0, hi⟩, ih.1 ⟨ms', hr⟩⟩
    · rintro ⟨h1, h2⟩
      obtain ⟨m0, hi⟩ := validateItem_ok_iff.2 h1
      obtain ⟨ms', hr⟩ := ih.2 h2
      exact ⟨m0 :: ms', by rw [hi, hr]⟩

/-- The validation loop returns one cleaned message per input item. -/
lemma validateList_length {items : List Json} {ms : List Msg}
    (h : validateList items = .ok ms) : ms.length = items.length := by
  induction items generalizing ms with
  | nil => simp only [validateList] at h; cases h; rfl
  | cons item rest ih =>
    simp only [validateList] at h
    cases hi : validateItem item with
    | error e => rw [hi] at h; cases h
    | ok m0 =>
      rw [hi] at h
      cases hr : validateList rest with
      | error e => rw [hr] at h; cases h
      | ok ms' => rw [hr] at h; cases h; simp [ih hr]

/-- The validator `_validate_messages` succeeds exactly on the spec's body condition
(with content strengthened to "contains a non-whitespace character"). -/
lemma validateMessages_ok_iff {body : Json} :
    (∃ ms, validateMessages body = .ok ms) ↔ specValidBody body = true := by
  constructor
  · rintro ⟨ms, h⟩
    obtain ⟨fields, items, rfl, hm, hr, hne⟩ := validateMessages_ok_elim h
    simp only [specValidBody]
    rw [hm]
    simp only []
    have hitems : ¬ items.isEmpty = true := by
      have hlen := validateList_length hr
      simp only [List.isEmpty_iff] at hne ⊢
      intro hnil
      apply hne
      rw [hnil] at hlen
      simpa using List.eq_nil_of_length_eq_zero hlen
    simp only [Bool.and_eq_true, Bool.not_eq_true']
    exact ⟨by simpa using hitems, validateList_ok_iff.1 ⟨ms, hr⟩⟩
  · intro hv
    cases body with
    | null => cases hv
    | bool b => cases hv
    | num n => cases hv
    | str s => cases hv
    | arr its => cases hv
    | obj fields =>
      simp only [specValidBody] at hv
      cases hm : jget fields "messages" with
      | none => rw [hm] at hv; cases hv
      | some v =>
        rw [hm] at hv
        cases v with
        | null => cases hv
        | bool b => cases hv
        | num n => cases hv
        | str s => cases hv
        | obj f2 => cases hv
        | arr items =>
          simp only [Bool.and_eq_true, Bool.not_eq_true'] at hv
          obtain ⟨hne, hall⟩ := hv
          obtain ⟨ms, hr⟩ := validateList_ok_iff.2 hall
          refine ⟨ms, validateMessages_ok_intro hm hr ?_⟩
          have hlen := validateList_length hr
          simp only [List.isEmpty_iff] at *
          intro hnil
          rw [hnil] at hlen
          have : items = [] := List.eq_nil_of_length_eq_zero hlen.symm
          simp [this] at hne

/-- A concatenation whose left part is non-empty is non-empty. -/
lemma append_ne_empty_left (a b : String) (h : a ≠ "") : a ++ b ≠ "" := by
  intro he
  apply h
  have hd := congrArg String.data he
  rw [String.data_append] at hd
  have ha : a.data = [] := (List.append_eq_nil.1 hd).1
  cases a
  simp_all

/-- For a `/api/chat` request whose `Content-Length` guard passes, `do_POST`
reaches the `try` block, and the rest of the run is determined by the body
parse, the validation, the credential and the upstream call. -/
lemma doPOST_past_guard {cl : Option String} {n : Int}
    (sp : String) (env : String → Option String)
    (hn : pyInt (contentLengthString cl) = some n) (h1 : 0 < n) (h2 : n ≤ 1000000)
    (bodyParse : Except String Json) (up : UpstreamResult) :
    doPOST sp env "/api/chat" cl bodyParse up =
      match bodyParse with
      | .error msg => .jsonResp 400 (errObj msg)
      | .ok payload =>
        match validateMessages payload with
        | .error e => .jsonResp (exceptStatus e) (errObj e.message)
        | .ok userMessages =>
          if pyStrip (apiKeyOf env) = "" then
            .jsonResp 500
              (errObj "Missing OPENROUTER_API_KEY (or OPENAI_API_KEY). Set it in .env.")
          else
            match chatCompletion (sentMessages sp userMessages) up with
            | .ok reply => .jsonResp 200 (replyObj reply)
            | .error e => .jsonResp (exceptStatus e) (errObj e.message) := by
  unfold doPOST
  rw [if_neg (by simp), hn]
  simp only []
  rw [if_neg (by omega)]

/-!  Concrete fixtures used by witnesses and counterexamples.  -/

/-- A well-formed request body with one user message. -/
def bodyHello : Json :=
  .obj [("messages", .arr [.obj [("role", .str "user"), ("content", .str "hello")]])]

/-- An environment carrying a usable credential. -/
def envWithKey : String → Option String :=
  fun k => if k = "OPENROUTER_API_KEY" then some "sk-test" else none

/-- An environment with no credential variable set at all. -/
def envNoKey : String → Option String := fun _ => none

/-- A 2xx upstream response whose parsed body has the expected
`choices[0].message.content` path (content carries surrounding spaces). -/
def upstreamGood : UpstreamResult :=
  .ok (.ok (.obj
    [("choices", .arr [.obj [("message", .obj [("content", .str " hi ")])]])]))

/-!  Claims.  -/

/-- C3: for every knowledge document string, the system prompt built from it
contains the document verbatim as a contiguous substring (here as a suffix
after the fixed persona header) — no truncation or modification; moreover
the interactive variant builds the identical prompt. -/
theorem c3_knowledge_verbatim (kb : String) :
    (∃ pre post, buildSystemPrompt kb = pre ++ kb ++ post) ∧
    systemPromptApp kb = buildSystemPrompt kb := by
  refine ⟨⟨buildSystemPrompt "", "", ?_⟩, rfl⟩
  simp [buildSystemPrompt, String.append_empty]

/-- C2: for every request body that validates, the messages sent upstream
start with exactly one system message carrying the system prompt, followed
by the caller's messages in their original order; the system role occurs
exactly once in the sent list. -/
theorem c2_system_prompt_first (payload : Json) (ms : List Msg)
    (sp model : String) (h : validateMessages payload = .ok ms) :
    (upstreamRequestBody model sp ms).messages = ⟨"system", sp⟩ :: ms ∧
    (upstreamRequestBody model sp ms).messages.countP
      (fun m => m.role == "system") = 1 := by
  refine ⟨rfl, ?_⟩
  have hz : ms.countP (fun m => m.role == "system") = 0 := by
    rw [List.countP_eq_zero]
    intro m hm
    rcases validateMessages_roles h m hm with h1 | h1 <;> simp [h1]
  simp [upstreamRequestBody, sentMessages, List.countP_cons, hz]

/-- C2 witness: the theorem applied to a concrete validated body. -/
theorem c2_system_prompt_first_witness :
    (upstreamRequestBody "openai/gpt-4o-mini" "SP" [⟨"user", "hello"⟩]).messages
        = ⟨"system", "SP"⟩ :: [⟨"user", "hello"⟩] ∧
    (upstreamRequestBody "openai/gpt-4o-mini" "SP" [⟨"user", "hello"⟩]).messages.countP
        (fun m => m.role == "system") = 1 :=
  c2_system_prompt_first bodyHello [⟨"user", "hello"⟩] "SP" "openai/gpt-4o-mini" (by rfl)

/-- C9: each new user input extends the interactive transcript append-only
and in order — the previous transcript is kept unchanged, the user message
is appended first, then the adapter's reply (the returned content on
success, the inline error string on failure). -/
theorem c9_transcript_append_only :
    (∀ (transcript : List Msg) (prompt : String) (up : AppUpstream),
      chatStep transcript prompt up =
        transcript ++ [⟨"user", prompt⟩, ⟨"assistant", getBotResponse up⟩]) ∧
    (∀ content, getBotResponse (.ok content) = content) ∧
    (∀ e, getBotResponse (.error e) = "応答の生成中にエラーが発生しました: " ++ e) := by
  refine ⟨?_, fun _ => rfl, fun _ => rfl⟩
  intro t p u
  simp [chatStep]

/-- For a request that passes the guard, validates, and finds a usable
credential, the response is determined by the adapter call alone. -/
lemma doPOST_adapter_result {cl : Option String} {n : Int} {body : Json}
    {ms : List Msg} (sp : String) (env : String → Option String)
    (up : UpstreamResult)
    (hn : pyInt (contentLengthString cl) = some n) (h1 : 0 < n) (h2 : n ≤ 1000000)
    (hv : validateMessages body = .ok ms) (hk : pyStrip (apiKeyOf env) ≠ "") :
    doPOST sp env "/api/chat" cl (.ok body) up =
      match chatCompletion (sentMessages sp ms) up with
      | .ok reply => .jsonResp 200 (replyObj reply)
      | .error e => .jsonResp (exceptStatus e) (errObj e.message) := by
  rw [doPOST_past_guard sp env hn h1 h2]
  simp only []
  rw [hv]
  simp only []
  rw [if_neg hk]

/-- One credential variable is blank: unset, empty, or whitespace-only. -/
def blankVar (v : Option String) : Prop :=
  ∀ s, v = some s → pyStrip s = ""

/-- If both credential variables are blank, the `or`-chained lookup of
line 174 yields a key that strips to the empty string. -/
lemma apiKey_blank {env : String → Option String}
    (hb1 : blankVar (env "OPENROUTER_API_KEY"))
    (hb2 : blankVar (env "OPENAI_API_KEY")) :
    pyStrip (apiKeyOf env) = "" := by
  unfold apiKeyOf pyOrStr
  cases hk : env "OPENROUTER_API_KEY" with
  | some s =>
    simp only []
    by_cases hs : s = ""
    · rw [if_pos hs]
      cases ho : env "OPENAI_API_KEY" with
      | some t => exact hb2 t ho
      | none => rfl
    · rw [if_neg hs]
      exact hb1 s hk
  | none =>
    simp only []
    cases ho : env "OPENAI_API_KEY" with
    | some t => exact hb2 t ho
    | none => rfl

/-- C6: a `/api/chat` request whose declared `Content-Length` parses to a
non-positive value or one above 1,000,000 — including the absent and
empty-header cases, which default to `"0"` — is answered 400 by the guard,
with an outcome that does not depend on the request body or the upstream:
the body is never read. -/
theorem c6_content_length_guard (sp : String) (env : String → Option String)
    (cl : Option String) (n : Int)
    (hn : pyInt (contentLengthString cl) = some n)
    (hbad : n ≤ 0 ∨ n > 1000000)
    (bodyParse : Except String Json) (up : UpstreamResult) :
    doPOST sp env "/api/chat" cl bodyParse up =
      .jsonResp 400 (errObj "Invalid Content-Length.") := by
  unfold doPOST
  rw [if_neg (by simp), hn]
  simp only []
  rw [if_pos hbad]

/-- C6 witness: an absent `Content-Length` header defaults to `0` and is
rejected whatever the body would have parsed to. -/
theorem c6_content_length_guard_witness :
    doPOST "SP" envWithKey "/api/chat" none (.error "body never parsed")
        (.httpError 500 "x") =
      .jsonResp 400 (errObj "Invalid Content-Length.") :=
  c6_content_length_guard "SP" envWithKey none 0 rfl (by decide)
    (.error "body never parsed") (.httpError 500 "x")

/-- C7: when neither credential variable holds a non-blank value, every
`/api/chat` request with valid input is answered 500 with the fixed
descriptive message, and the outcome does not depend on the upstream — no
network call is attempted. -/
theorem c7_missing_credential (sp : String) (env : String → Option String)
    (cl : Option String) (n : Int) (body : Json) (ms : List Msg)
    (up : UpstreamResult)
    (hn : pyInt (contentLengthString cl) = some n) (h1 : 0 < n) (h2 : n ≤ 1000000)
    (hv : validateMessages body = .ok ms)
    (hb1 : blankVar (env "OPENROUTER_API_KEY"))
    (hb2 : blankVar (env "OPENAI_API_KEY")) :
    doPOST sp env "/api/chat" cl (.ok body) up =
      .jsonResp 500
        (errObj "Missing OPENROUTER_API_KEY (or OPENAI_API_KEY). Set it in .env.") ∧
    ("Missing OPENROUTER_API_KEY (or OPENAI_API_KEY). Set it in .env." : String) ≠ "" := by
  refine ⟨?_, by decide⟩
  rw [doPOST_past_guard sp env hn h1 h2]
  simp only []
  rw [hv]
  simp only []
  rw [if_pos (apiKey_blank hb1 hb2)]

/-- C7 witness: with no credential variable set, a valid request gets the
500 diagnostic (shown here with an upstream that would have failed — it is
never consulted). -/
theorem c7_missing_credential_witness :
    doPOST "SP" envNoKey "/api/chat" (some "100") (.ok bodyHello)
        (.urlError "unreachable") =
      .jsonResp 500
        (errObj "Missing OPENROUTER_API_KEY (or OPENAI_API_KEY). Set it in .env.") ∧
    ("Missing OPENROUTER_API_KEY (or OPENAI_API_KEY). Set it in .env." : String) ≠ "" :=
  c7_missing_credential "SP" envNoKey (some "100") 100 bodyHello
    [⟨"user", "hello"⟩] (.urlError "unreachable") rfl (by decide) (by decide) rfl
    (fun s h => nomatch h) (fun s h => nomatch h)

/-- C5 counterexample: a request whose `Content-Length` header is not an
integer literal makes `int(...)` (line 160, outside the `try`) raise an
uncaught `ValueError`: the handler writes no response at all for this
request, so not every failure path yields a rendered message or a JSON
error object. -/
theorem c5_nonint_content_length_counterexample :
    (doPOST "SP" envWithKey "/api/chat" (some "abc") (.ok bodyHello)
        (.httpError 500 "boom")).isResponse = false := by
  rfl

/-- C5 (amended): for every request whose `Content-Length` header parses as
an integer (or is absent or empty, defaulting to `"0"`), `do_POST` always
writes a response — a JSON object or the 404 error — whatever the path,
body, environment and upstream outcome. -/
theorem c5_errors_answered (sp : String) (env : String → Option String)
    (path : String) (cl : Option String) (bodyParse : Except String Json)
    (up : UpstreamResult)
    (hcl : (pyInt (contentLengthString cl)).isSome = true) :
    (doPOST sp env path cl bodyParse up).isResponse = true := by
  unfold doPOST
  by_cases hp : path ≠ "/api/chat"
  · rw [if_pos hp]; rfl
  · rw [if_neg hp]
    obtain ⟨n, hn⟩ := Option.isSome_iff_exists.1 hcl
    rw [hn]
    simp only []
    by_cases hb : n ≤ 0 ∨ n > 1000000
    · rw [if_pos hb]; rfl
    · rw [if_neg hb]
      cases bodyParse with
      | error m => rfl
      | ok payload =>
        simp only []
        cases hv : validateMessages payload with
        | error e => rfl
        | ok ms =>
          simp only []
          by_cases hk : pyStrip (apiKeyOf env) = ""
          · rw [if_pos hk]; rfl
          · rw [if_neg hk]
            cases hc : chatCompletion (sentMessages sp ms) up with
            | ok reply => rfl
            | error e => rfl

/-- C5 witness: a request with an integer `Content-Length` always gets some
response written. -/
theorem c5_errors_answered_witness :
    (doPOST "SP" envNoKey "/other" (some "10") (.error "bad json")
        (.urlError "down")).isResponse = true :=
  c5_errors_answered "SP" envNoKey "/other" (some "10") (.error "bad json")
    (.urlError "down") rfl

/-- A request body with a single message, as the validator sees it. -/
def singleMsgBody (r c : String) : Json :=
  .obj [("messages", .arr [.obj [("role", .str r), ("content", .str c)]])]

/-- C10: a message whose content is a non-empty string of only whitespace
is rejected with 400 — the validator demands `content.strip()` non-empty,
strictly stronger than non-emptiness of the string itself. -/
theorem c10_whitespace_content_rejected (r c sp : String)
    (env : String → Option String) (cl : Option String) (n : Int)
    (up : UpstreamResult)
    (hr : r = "user" ∨ r = "assistant") (_hc : c ≠ "") (hw : pyStrip c = "")
    (hn : pyInt (contentLengthString cl) = some n) (h1 : 0 < n) (h2 : n ≤ 1000000) :
    validateMessages (singleMsgBody r c) =
      .error (.valueError "Each message.content must be a non-empty string.") ∧
    doPOST sp env "/api/chat" cl (.ok (singleMsgBody r c)) up =
      .jsonResp 400 (errObj "Each message.content must be a non-empty string.") := by
  have hitem : validateItem (.obj [("role", .str r), ("content", .str c)]) =
      .error (.valueError "Each message.content must be a non-empty string.") := by
    unfold validateItem
    simp only []
    rw [show jget [("role", Json.str r), ("content", Json.str c)] "role"
        = some (.str r) from rfl]
    simp only []
    rw [if_pos hr]
    rw [show jget [("role", Json.str r), ("content", Json.str c)] "content"
        = some (.str c) from rfl]
    simp only []
    rw [if_pos hw]
  have hv : validateMessages (singleMsgBody r c) =
      .error (.valueError "Each message.content must be a non-empty string.") := by
    unfold singleMsgBody
    simp only [validateMessages]
    rw [show jget [("messages",
        Json.arr [Json.obj [("role", Json.str r), ("content", Json.str c)]])] "messages"
        = some (.arr [.obj [("role", .str r), ("content", .str c)]]) from rfl]
    simp only [validateList]
    rw [hitem]
  refine ⟨hv, ?_⟩
  rw [doPOST_past_guard sp env hn h1 h2]
  simp only []
  rw [hv]
  rfl

/-- C10 witness: a single space as content is non-empty yet rejected. -/
theorem c10_whitespace_content_rejected_witness :
    validateMessages (singleMsgBody "user" " ") =
      .error (.valueError "Each message.content must be a non-empty string.") ∧
    doPOST "SP" envWithKey "/api/chat" (some "100") (.ok (singleMsgBody "user" " "))
        (.urlError "down") =
      .jsonResp 400 (errObj "Each message.content must be a non-empty string.") :=
  c10_whitespace_content_rejected "user" " " "SP" envWithKey (some "100") 100
    (.urlError "down") (Or.inl rfl) (by decide) rfl rfl (by decide) (by decide)

/-- C1 counterexample: with valid input and a credential in place, a 2xx
upstream response whose body is not valid JSON is answered 400, not 500 —
`json.loads(raw)` on line 100 sits outside the adapter's `try`, and the
`json.JSONDecodeError` it raises is caught by the transport's
`except (ValueError, json.JSONDecodeError)` clause. -/
theorem c1_upstream_bad_json_counterexample :
    doPOST "SP" envWithKey "/api/chat" (some "100") (.ok bodyHello)
        (.ok (.error "Expecting value: line 1 column 1 (char 0)")) =
      .jsonResp 400 (errObj "Expecting value: line 1 column 1 (char 0)") := by
  rfl

/-- C1 (amended): for a validated request with a usable credential, a
non-2xx upstream status, an unreachable upstream, and a 2xx JSON response
lacking the `choices[0].message.content` path are each answered 500 with a
non-empty error; a 2xx response whose body is not valid JSON is instead
answered 400, carrying the parser's message.  Every case yields a JSON
error object from the stateless handler. -/
theorem c1_upstream_failure_reporting (sp : String)
    (env : String → Option String) (cl : Option String) (n : Int)
    (body : Json) (ms : List Msg)
    (hn : pyInt (contentLengthString cl) = some n) (h1 : 0 < n) (h2 : n ≤ 1000000)
    (hv : validateMessages body = .ok ms) (hk : pyStrip (apiKeyOf env) ≠ "") :
    (∀ code rawBody,
      doPOST sp env "/api/chat" cl (.ok body) (.httpError code rawBody) =
        .jsonResp 500
          (errObj ("Upstream error (" ++ toString code ++ "): " ++ rawBody)) ∧
      ("Upstream error (" ++ toString code ++ "): " ++ rawBody) ≠ "") ∧
    (∀ msg,
      doPOST sp env "/api/chat" cl (.ok body) (.urlError msg) =
        .jsonResp 500 (errObj ("Failed to reach upstream: " ++ msg)) ∧
      ("Failed to reach upstream: " ++ msg) ≠ "") ∧
    (∀ parsed, extractContent parsed = none →
      doPOST sp env "/api/chat" cl (.ok body) (.ok (.ok parsed)) =
        .jsonResp 500
          (errObj ("Unexpected upstream response: " ++ pyRepr parsed)) ∧
      ("Unexpected upstream response: " ++ pyRepr parsed) ≠ "") ∧
    (∀ parseMsg,
      doPOST sp env "/api/chat" cl (.ok body) (.ok (.error parseMsg)) =
        .jsonResp 400 (errObj parseMsg)) := by
  refine ⟨?_, ?_, ?_, ?_⟩
  · intro code rawBody
    refine ⟨?_, append_ne_empty_left _ _ (append_ne_empty_left _ _
      (append_ne_empty_left _ _ (by decide)))⟩
    rw [doPOST_adapter_result sp env _ hn h1 h2 hv hk]
    rfl
  · intro msg
    refine ⟨?_, append_ne_empty_left _ _ (by decide)⟩
    rw [doPOST_adapter_result sp env _ hn h1 h2 hv hk]
    rfl
  · intro parsed hx
    refine ⟨?_, append_ne_empty_left _ _ (by decide)⟩
    rw [doPOST_adapter_result sp env _ hn h1 h2 hv hk]
    simp only [chatCompletion]
    rw [hx]
    rfl
  · intro parseMsg
    rw [doPOST_adapter_result sp env _ hn h1 h2 hv hk]
    rfl

/-- C1 witness: the amended reporting at concrete inputs — a 502 upstream
status becomes a 500 response with the diagnostic message. -/
theorem c1_upstream_failure_reporting_witness :
    doPOST "SP" envWithKey "/api/chat" (some "100") (.ok bodyHello)
        (.httpError 502 "bad gateway") =
      .jsonResp 500 (errObj ("Upstream error (" ++ toString 502 ++ "): " ++ "bad gateway")) ∧
    ("Upstream error (" ++ toString 502 ++ "): " ++ "bad gateway") ≠ "" :=
  (c1_upstream_failure_reporting "SP" envWithKey (some "100") 100 bodyHello
    [⟨"user", "hello"⟩] rfl (by decide) (by decide) rfl (by decide)).1 502 "bad gateway"

/-- A request body whose single message has whitespace-only (yet non-empty)
string content. -/
def bodyWsContent : Json :=
  .obj [("messages", .arr [.obj [("role", .str "user"), ("content", .str "  ")]])]

/-- A request body whose single message carries a JSON array as its role. -/
def bodyRoleArr : Json :=
  .obj [("messages", .arr [.obj [("role", .arr []), ("content", .str "x")]])]

/-- C4 counterexample: the claimed success condition and 400-on-failure
both fail on the code.  `"  "` is a non-empty string, so the claim's
condition holds of `bodyWsContent`, yet validation rejects it; and a
message whose role is a JSON array makes the `role not in {...}` membership
test raise `TypeError`, which `except Exception` maps to 500, not 400. -/
theorem c4_validation_counterexample :
    ("  " : String) ≠ "" ∧
    validateMessages bodyWsContent =
      .error (.valueError "Each message.content must be a non-empty string.") ∧
    doPOST "SP" envWithKey "/api/chat" (some "100") (.ok bodyRoleArr)
        (.urlError "down") =
      .jsonResp 500 (errObj "unhashable type: \x27list\x27") := by
  exact ⟨by decide, rfl, rfl⟩

/-- C4 (amended): validation succeeds exactly when the body is a JSON
object whose `messages` field is a non-empty array of objects, each with
role `"user"` or `"assistant"` and a string content containing at least one
non-whitespace character; each validation failure carries a non-empty error
message and is answered with the status its exception class receives — 400
for the `ValueError` family, 500 for the `TypeError` raised by an
unhashable role. -/
theorem c4_validation_characterization (body : Json) (sp : String)
    (env : String → Option String) (cl : Option String) (n : Int)
    (up : UpstreamResult)
    (hn : pyInt (contentLengthString cl) = some n) (h1 : 0 < n) (h2 : n ≤ 1000000) :
    ((∃ ms, validateMessages body = .ok ms) ↔ specValidBody body = true) ∧
    (∀ e, validateMessages body = .error e →
      e.message ≠ "" ∧
      doPOST sp env "/api/chat" cl (.ok body) up =
        .jsonResp (exceptStatus e) (errObj e.message)) := by
  refine ⟨validateMessages_ok_iff, ?_⟩
  intro e he
  refine ⟨validateMessages_error_message he, ?_⟩
  rw [doPOST_past_guard sp env hn h1 h2]
  simp only []
  rw [he]

/-- C4 witness: the characterization applied to the whitespace-content
body, whose rejection is answered with the `ValueError` status 400. -/
theorem c4_validation_characterization_witness :
    ("Each message.content must be a non-empty string." : String) ≠ "" ∧
    doPOST "SP" envWithKey "/api/chat" (some "100") (.ok bodyWsContent)
        (.urlError "down") =
      .jsonResp
        (exceptStatus (.valueError "Each message.content must be a non-empty string."))
        (errObj (PyErr.message
          (.valueError "Each message.content must be a non-empty string."))) :=
  (c4_validation_characterization bodyWsContent "SP" envWithKey (some "100") 100
    (.urlError "down") rfl (by decide) (by decide)).2
    (.valueError "Each message.content must be a non-empty string.") rfl

/-- C8 counterexample: the interactive variant returns the first
completion's content as-is — `get_bot_response` has no `.strip()` — so the
trimming claimed for both variants fails there. -/
theorem c8_app_variant_no_trim_counterexample :
    getBotResponse (.ok " hi ") = " hi " ∧
    pyStrip " hi " = "hi" ∧
    (" hi " : String) ≠ "hi" := by
  exact ⟨rfl, rfl, by decide⟩

/-- C8 (amended): on a successful upstream response the HTTP-variant
adapter returns `choices[0].message.content` with surrounding whitespace
stripped, and the transport wraps it in a 200 `{"reply": ...}`; the
interactive variant returns the content unmodified, without trimming — on
this point the two variants are not equivalent. -/
theorem c8_reply_extraction (sp : String) (env : String → Option String)
    (cl : Option String) (n : Int) (body : Json) (ms : List Msg)
    (parsed : Json) (content : String)
    (hn : pyInt (contentLengthString cl) = some n) (h1 : 0 < n) (h2 : n ≤ 1000000)
    (hv : validateMessages body = .ok ms) (hk : pyStrip (apiKeyOf env) ≠ "")
    (hx : extractContent parsed = some content) :
    chatCompletion (sentMessages sp ms) (.ok (.ok parsed)) = .ok (pyStrip content) ∧
    doPOST sp env "/api/chat" cl (.ok body) (.ok (.ok parsed)) =
      .jsonResp 200 (replyObj (pyStrip content)) ∧
    (∀ c, getBotResponse (.ok c) = c) := by
  have hcc : chatCompletion (sentMessages sp ms) (.ok (.ok parsed))
      = .ok (pyStrip content) := by
    simp only [chatCompletion]
    rw [hx]
  refine ⟨hcc, ?_, fun _ => rfl⟩
  rw [doPOST_adapter_result sp env _ hn h1 h2 hv hk, hcc]

/-- C8 witness: a content of `" hi "` comes back trimmed to `"hi"` from the
HTTP variant and untouched from the interactive variant. -/
theorem c8_reply_extraction_witness :
    chatCompletion (sentMessages "SP" [⟨"user", "hello"⟩])
        (.ok (.ok (.obj [("choices",
          .arr [.obj [("message", .obj [("content", .str " hi ")])]])])))
      = .ok (pyStrip " hi ") ∧
    doPOST "SP" envWithKey "/api/chat" (some "100") (.ok bodyHello)
        (.ok (.ok (.obj [("choices",
          .arr [.obj [("message", .obj [("content", .str " hi ")])]])]))) =
      .jsonResp 200 (replyObj (pyStrip " hi ")) ∧
    (∀ c, getBotResponse (.ok c) = c) :=
  c8_reply_extraction "SP" envWithKey (some "100") 100 bodyHello
    [⟨"user", "hello"⟩]
    (.obj [("choices", .arr [.obj [("message", .obj [("content", .str " hi ")])]])])
    " hi " rfl (by decide) (by decide) rfl (by decide) rfl

end Chatbot
